import Mathlib

/-!
Shallow embedding of the UseCaseSimulator core (src/modules/core) in Lean 4.

Python floats are modelled as rationals (`ℚ`) for the arithmetic of
`company.py`, `event_manager.py`, `round_manager.py`, `market.py` and
`simulation_engine.py`; the one genuinely real-valued computation
(`DemandCalculator.calculate_demand`, which uses a fractional power) is
modelled over `ℝ`.  Python dicts with string keys are modelled as
insertion-ordered association lists.  `datetime.now()` timestamps and
human-readable summary strings are omitted: no modelled behaviour reads them.
Randomness (`random.random()` / `random.uniform`) is made explicit as a
stream `ℕ → ℚ` of draws in `[0,1]` together with a threaded index, consumed
in the same order as the Python code consumes the global random stream.
-/

namespace UseCaseSim

/-- Python `dict.get(key)` on a string-keyed dict, as lookup in an
insertion-ordered association list. -/
def dictLookup {β : Type} : List (String × β) → String → Option β
  | [], _ => none
  | (k, v) :: t, key => if k = key then some v else dictLookup t key

/-- Python `dict.get(key, default)`. -/
def dictGetD {β : Type} (l : List (String × β)) (key : String) (d : β) : β :=
  (dictLookup l key).getD d

/-- Python `key in dict`. -/
def dictHas {β : Type} (l : List (String × β)) (key : String) : Bool :=
  (dictLookup l key).isSome

/-- `d[k] = d.get(k, 0.0) + v`, creating the key at the end of the dict when
absent (Python dicts preserve insertion order). -/
def dictBump : List (String × ℚ) → String → ℚ → List (String × ℚ)
  | [], k, v => [(k, v)]
  | (k', v') :: t, k, v =>
      if k' = k then (k', v' + v) :: t else (k', v') :: dictBump t k v

/-- Parameter dict of a decision (`Dict[str, Any]` restricted to the numeric
values the core reads). -/
abbrev Params := List (String × ℚ)

/-- `market_conditions` mapping passed to `Company.update_state`. -/
abbrev MarketConditions := List (String × ℚ)

/-! ## company.py -/

/-- `FinancialData` dataclass. -/
structure FinancialData where
  revenue : ℚ := 0
  costs : ℚ := 0
  profit : ℚ := 0
  cash_flow : ℚ := 0
  assets : ℚ := 0
  liabilities : ℚ := 0
  cash : ℚ := 0
  deriving Repr, DecidableEq

/-- `OperationsData` dataclass. -/
structure OperationsData where
  capacity : ℚ := 1000
  efficiency : ℚ := 4/5
  quality : ℚ := 3/4
  customer_satisfaction : ℚ := 7/10
  utilization : ℚ := 0
  deriving Repr, DecidableEq

/-- `ResourceData` dataclass (`employees` is numeric; all executions keep it
integral). -/
structure ResourceData where
  employees : ℚ := 100
  equipment : ℚ := 100000
  inventory : ℚ := 50000
  deriving Repr, DecidableEq

/-- `MarketData` dataclass. -/
structure MarketData where
  market_share : ℚ := 3/20
  brand_value : ℚ := 50
  competitive_position : ℚ := 1/2
  deriving Repr, DecidableEq

/-- One entry of `DecisionManager.decision_history`
(the `datetime.now()` timestamp is omitted). -/
structure DecisionRecord where
  dtype : String
  params : Params
  round : ℚ
  deriving Repr, DecidableEq

/-- One entry of `Company.performance_history` (timestamp omitted). -/
structure PerfRecord where
  revenue : ℚ
  profit : ℚ
  market_share : ℚ
  customer_satisfaction : ℚ
  efficiency : ℚ
  deriving Repr, DecidableEq

/-- The `Company` dataclass together with the state of its managers:
`FinancialManager`, `OperationsManager`, `ResourceManager` only wrap the
data records, and `DecisionManager` holds `decision_history`. -/
structure Company where
  id : String
  name : String
  financial_data : FinancialData := {}
  operations_data : OperationsData := {}
  resource_data : ResourceData := {}
  market_data : MarketData := {}
  decision_history : List DecisionRecord := []
  performance_history : List PerfRecord := []
  deriving Repr, DecidableEq

namespace Company

/-- `FinancialManager.calculate_revenue`. -/
def fm_calculate_revenue (market_demand price market_share : ℚ) : ℚ :=
  price * (market_demand * market_share)

/-- `FinancialManager.calculate_costs`. -/
def fm_calculate_costs (o : OperationsData) (r : ResourceData) : ℚ :=
  let operational_costs := o.capacity * o.utilization * 50
  let employee_costs := r.employees * 50000
  let equipment_maintenance := r.equipment * (5/100)
  let inventory_holding := r.inventory * (2/100)
  operational_costs + employee_costs + equipment_maintenance + inventory_holding

/-- `FinancialManager.update_financials`: sets revenue and costs, recomputes
profit as revenue minus costs (`calculate_profit`), then cash flow and cash. -/
def fm_update_financials (f : FinancialData) (revenue costs : ℚ) : FinancialData :=
  let profit := revenue - costs
  let cash_flow := profit - f.assets * (1/10)
  { f with
    revenue := revenue
    costs := costs
    profit := profit
    cash_flow := cash_flow
    cash := f.cash + cash_flow }

/-- `OperationsManager.update_efficiency`. -/
def om_update_efficiency (o : OperationsData) (investment : ℚ) : OperationsData :=
  let improvement := min (investment / 100000) (1/10)
  { o with efficiency := min 1 (o.efficiency + improvement) }

/-- `OperationsManager.update_capacity`. -/
def om_update_capacity (o : OperationsData) (expansion : ℚ) : OperationsData :=
  { o with capacity := o.capacity + expansion }

/-- `OperationsManager.calculate_utilization` (stores and returns the value). -/
def om_calculate_utilization (o : OperationsData) (demand market_share : ℚ) :
    OperationsData :=
  let required_capacity := demand * market_share
  let utilization :=
    if 0 < o.capacity then min 1 (required_capacity / o.capacity) else 0
  { o with utilization := utilization }

/-- `OperationsManager.update_quality`. -/
def om_update_quality (o : OperationsData) (quality_investment : ℚ) : OperationsData :=
  let improvement := min (quality_investment / 50000) (1/10)
  { o with quality := min 1 (o.quality + improvement) }

/-- `OperationsManager.update_customer_satisfaction`. -/
def om_update_customer_satisfaction (o : OperationsData)
    (quality price market_price : ℚ) : OperationsData :=
  let quality_factor := quality
  let price_factor := 1 - |price - market_price| / market_price
  { o with customer_satisfaction := min 1 ((quality_factor + price_factor) / 2) }

/-- `DecisionManager._validate_decision`: the fixed table of required
parameters per decision kind. -/
def required_params : String → Option (List String)
  | "price_change" => some ["new_price"]
  | "capacity_expansion" => some ["expansion_amount"]
  | "marketing_campaign" => some ["budget"]
  | "quality_improvement" => some ["investment"]
  | "hiring" => some ["num_employees"]
  | "equipment_purchase" => some ["equipment_value"]
  | _ => none

/-- `DecisionManager._validate_decision`. -/
def _validate_decision (decision_type : String) (params : Params) : Bool :=
  match required_params decision_type with
  | none => false
  | some req => req.all fun p => dictHas params p

/-- `DecisionManager.make_decision`: on successful validation appends the
decision record and reports success; otherwise leaves the history untouched. -/
def dm_make_decision (history : List DecisionRecord) (decision_type : String)
    (params : Params) : List DecisionRecord × Bool :=
  if _validate_decision decision_type params then
    (history ++ [{ dtype := decision_type, params := params,
                   round := dictGetD params "round" 0 }], true)
  else
    (history, false)

/-- `Company._apply_decision_impact`.  The parameters were validated, so the
required keys are present; absent keys (unreachable) default to 0. -/
def _apply_decision_impact (c : Company) (decision_type : String)
    (params : Params) : Company :=
  if decision_type = "price_change" then
    c  -- would need market context
  else if decision_type = "capacity_expansion" then
    { c with operations_data :=
        om_update_capacity c.operations_data (dictGetD params "expansion_amount" 0) }
  else if decision_type = "marketing_campaign" then
    let budget := dictGetD params "budget" 0
    { c with market_data :=
        { c.market_data with
          brand_value := c.market_data.brand_value + budget / 10000
          market_share := min (1/2) (c.market_data.market_share + budget / 1000000) } }
  else if decision_type = "quality_improvement" then
    { c with operations_data :=
        om_update_quality c.operations_data (dictGetD params "investment" 0) }
  else if decision_type = "hiring" then
    { c with resource_data :=
        { c.resource_data with
          employees := c.resource_data.employees + dictGetD params "num_employees" 0 } }
  else if decision_type = "equipment_purchase" then
    { c with resource_data :=
        { c.resource_data with
          equipment := c.resource_data.equipment + dictGetD params "equipment_value" 0 } }
  else
    c

/-- `Company.make_decision`: validate + record via the decision manager, and
apply the impact only on success. -/
def make_decision (c : Company) (decision_type : String) (params : Params) :
    Company × Bool :=
  let (history, success) := dm_make_decision c.decision_history decision_type params
  let c := { c with decision_history := history }
  if success then (_apply_decision_impact c decision_type params, true)
  else (c, false)

/-- `Company._record_performance`: append a snapshot, evicting the oldest
once the history exceeds 50 entries. -/
def _record_performance (c : Company) : Company :=
  let history := c.performance_history ++
    [{ revenue := c.financial_data.revenue
       profit := c.financial_data.profit
       market_share := c.market_data.market_share
       customer_satisfaction := c.operations_data.customer_satisfaction
       efficiency := c.operations_data.efficiency }]
  { c with performance_history := if 50 < history.length then history.tail else history }

/-- `Company.update_state`: utilization, customer satisfaction, financials,
then a performance snapshot. -/
def update_state (c : Company) (market_conditions : MarketConditions) : Company :=
  let demand := dictGetD market_conditions "demand_level" 1000
  let price := dictGetD market_conditions "price_index" 1 * 100
  let market_price := dictGetD market_conditions "market_price" 100
  let ops := om_calculate_utilization c.operations_data demand c.market_data.market_share
  let ops := om_update_customer_satisfaction ops ops.quality price market_price
  let c := { c with operations_data := ops }
  let revenue := fm_calculate_revenue demand price c.market_data.market_share
  let costs := fm_calculate_costs c.operations_data c.resource_data
  let c := { c with financial_data := fm_update_financials c.financial_data revenue costs }
  _record_performance c

/-- KPI snapshot returned by `Company.get_kpis`. -/
structure KPIs where
  revenue : ℚ
  profit_margin : ℚ
  market_share : ℚ
  roi : ℚ
  customer_satisfaction : ℚ
  operational_efficiency : ℚ
  capacity_utilization : ℚ
  brand_value : ℚ
  deriving Repr, DecidableEq

/-- `Company.get_kpis`. -/
def get_kpis (c : Company) : KPIs where
  revenue := c.financial_data.revenue
  profit_margin :=
    if 0 < c.financial_data.revenue then
      c.financial_data.profit / c.financial_data.revenue
    else 0
  market_share := c.market_data.market_share
  roi :=
    if 0 < c.financial_data.assets then
      c.financial_data.profit / c.financial_data.assets
    else 0
  customer_satisfaction := c.operations_data.customer_satisfaction
  operational_efficiency := c.operations_data.efficiency
  capacity_utilization := c.operations_data.utilization
  brand_value := c.market_data.brand_value

end Company

/-! ## event_manager.py -/

/-- `EventType` enum. -/
inductive EventType where
  | random
  | scheduled
  | decision
  deriving Repr, DecidableEq

/-- `Event` dataclass.  `impact` is a string-keyed dict of metric deltas;
`conditions` only ever holds the integer-valued keys the condition grammar
reads (`round`, `min_round`, `max_round`; unrecognized keys are ignored). -/
structure Event where
  id : String
  name : String
  description : String
  type : EventType
  probability : ℚ
  impact : List (String × ℚ)
  duration : ℤ
  conditions : List (String × ℤ)
  deriving Repr, DecidableEq

/-- An entry of `EventManager.active_events` (the `event_data` dict built by
`trigger_event`). -/
structure ActiveEvent where
  event : Event
  triggered_round : ℤ
  remaining_duration : ℤ
  effects_applied : Bool
  deriving Repr, DecidableEq

/-- An entry of `EventManager.event_history` (timestamp omitted). -/
structure EventHistoryEntry where
  event_id : String
  triggered_round : ℤ
  deriving Repr, DecidableEq

/-- The `market_crash` default event definition. -/
def market_crash : Event :=
  { id := "market_crash", name := "Market Crash",
    description := "Sudden market downturn affects all companies",
    type := .random, probability := 1/10,
    impact := [("revenue", -3/10), ("market_share", -1/10)],
    duration := 2, conditions := [] }

/-- The `tech_breakthrough` default event definition. -/
def tech_breakthrough : Event :=
  { id := "tech_breakthrough", name := "Technology Breakthrough",
    description := "New technology increases efficiency",
    type := .random, probability := 3/20,
    impact := [("efficiency", 1/5), ("costs", -1/10)],
    duration := 3, conditions := [] }

/-- The `regulatory_change` default event definition. -/
def regulatory_change : Event :=
  { id := "regulatory_change", name := "Regulatory Change",
    description := "New regulations increase compliance costs",
    type := .scheduled, probability := 1,
    impact := [("costs", 3/20)],
    duration := 1, conditions := [("round", 5)] }

/-- The `economic_boom` default event definition. -/
def economic_boom : Event :=
  { id := "economic_boom", name := "Economic Boom",
    description := "Strong economic growth boosts demand",
    type := .random, probability := 1/5,
    impact := [("demand", 1/4), ("revenue", 3/20)],
    duration := 2, conditions := [] }

/-- The default event definitions of `_load_default_events`, in dict
insertion order. -/
def default_events : List Event :=
  [market_crash, tech_breakthrough, regulatory_change, economic_boom]

/-- `EventManager` state.  `event_definitions` is a dict keyed by event id
iterated in insertion order, modelled as the list of its values. -/
structure EventManager where
  active_events : List ActiveEvent := []
  event_history : List EventHistoryEntry := []
  event_definitions : List Event := default_events
  deriving Repr, DecidableEq

namespace EventManager

/-- `EventManager._check_conditions`. -/
def _check_conditions (conditions : List (String × ℤ)) (round_number : ℤ) : Bool :=
  conditions.all fun kv =>
    if kv.1 = "round" then round_number = kv.2
    else if kv.1 = "min_round" then kv.2 ≤ round_number
    else if kv.1 = "max_round" then round_number ≤ kv.2
    else true

/-- `EventManager.trigger_event`: appends an active instance with
`remaining_duration = event.duration` and a history record, returning the
new instance. -/
def trigger_event (em : EventManager) (event : Event) (round_number : ℤ) :
    EventManager × ActiveEvent :=
  let event_data : ActiveEvent :=
    { event := event, triggered_round := round_number,
      remaining_duration := event.duration, effects_applied := false }
  ({ em with
     active_events := em.active_events ++ [event_data]
     event_history := em.event_history ++
       [{ event_id := event.id, triggered_round := round_number }] },
   event_data)

/-- Decrement of one active instance (`event_data['remaining_duration'] -= 1`). -/
def tick (e : ActiveEvent) : ActiveEvent :=
  { e with remaining_duration := e.remaining_duration - 1 }

/-- `EventManager.process_active_events`: decrement every active instance,
remove those whose remaining duration is now `≤ 0` and return them as the
expired list (iteration over a copy; both lists keep the original order). -/
def process_active_events (em : EventManager) :
    EventManager × List ActiveEvent :=
  let decremented := em.active_events.map tick
  ({ em with active_events := decremented.filter fun e => 0 < e.remaining_duration },
   decremented.filter fun e => e.remaining_duration ≤ 0)

/-- `EventManager.get_active_event_impacts`: fold every active instance's
impact dict into one total dict, summing per metric key. -/
def get_active_event_impacts (em : EventManager) : List (String × ℚ) :=
  em.active_events.foldl
    (fun total e => e.event.impact.foldl (fun t kv => dictBump t kv.1 kv.2) total)
    []

/-- `EventManager.generate_random_events`: for each RANDOM definition whose
conditions hold, roll one draw from the stream and keep the event when the
draw is below its probability.  Returns the triggered events and the next
stream index. -/
def generate_random_events (defs : List Event) (round_number : ℤ)
    (rs : ℕ → ℚ) (i : ℕ) : List Event × ℕ :=
  match defs with
  | [] => ([], i)
  | e :: rest =>
    if e.type = .random ∧ _check_conditions e.conditions round_number then
      let (l, i') := generate_random_events rest round_number rs (i + 1)
      (if rs i < e.probability then e :: l else l, i')
    else
      generate_random_events rest round_number rs i

/-- `EventManager.process_scheduled_events`. -/
def process_scheduled_events (defs : List Event) (round_number : ℤ) : List Event :=
  defs.filter fun e => e.type = .scheduled ∧ _check_conditions e.conditions round_number

end EventManager

/-! ## round_manager.py -/

/-- `RoundManager` state.  Pythons ints are modelled as `ℤ`. -/
structure RoundManager where
  max_rounds : ℤ := 10
  current_round : ℤ := 0
  deriving Repr, DecidableEq

namespace RoundManager

/-- `RoundManager.advance_round`: increments only below `max_rounds`; returns
the new state and the new round number. -/
def advance_round (rm : RoundManager) : RoundManager × ℤ :=
  let rm' :=
    if rm.current_round < rm.max_rounds then
      { rm with current_round := rm.current_round + 1 }
    else rm
  (rm', rm'.current_round)

/-- `RoundManager.is_simulation_over`. -/
def is_simulation_over (rm : RoundManager) : Bool :=
  rm.max_rounds ≤ rm.current_round

/-- `RoundManager._process_pricing_decision` (the `impact` field). -/
def pricing_impact (price : ℚ) : ℚ := max (1/2) (min (3/2) (price / 100))

/-- `RoundManager._process_investment_decision` (the `impact` field). -/
def investment_impact (amount : ℚ) : ℚ := amount * (1/10)

/-- `RoundManager._process_marketing_decision` (the `impact` field). -/
def marketing_impact (budget : ℚ) : ℚ := min (1/2) (budget / 10000)

end RoundManager

/-! ## market.py (rational part: state, competitor AI, trends) -/

/-- `economic_indicators` mapping of `MarketState` (fixed keys). -/
structure EconomicIndicators where
  gdp_growth : ℚ := 1/50
  inflation : ℚ := 3/100
  interest_rate : ℚ := 1/20
  deriving Repr, DecidableEq

/-- `trend_factors` mapping of `MarketState` (fixed keys). -/
structure TrendFactors where
  seasonal : ℚ := 0
  trend : ℚ := 0
  cyclical : ℚ := 0
  deriving Repr, DecidableEq

/-- `MarketState` dataclass.  `active_events` holds the `impacts` dicts of
events applied via `apply_market_event` (a path never reached from
`run_round`, see `SimulationEngine.run_round`). -/
structure MarketState where
  demand_level : ℚ := 1000
  price_index : ℚ := 1
  competition_intensity : ℚ := 1/2
  economic_indicators : EconomicIndicators := {}
  active_events : List (List (String × ℚ)) := []
  trend_factors : TrendFactors := {}
  deriving Repr, DecidableEq

/-- One competitor record of `CompetitorAI.competitors`. -/
structure Competitor where
  id : String
  name : String
  strategy : String
  aggressiveness : ℚ
  price_sensitivity : ℚ
  innovation_focus : ℚ
  market_share : ℚ
  price : ℚ := 100
  quality : ℚ
  last_decision : Option (ℚ × ℚ × ℚ) := none
  deriving Repr, DecidableEq

/-- A competitor action dict: `price_change`, `quality_change`,
`aggressive_move`. -/
structure CompAction where
  price_change : ℚ := 0
  quality_change : ℚ := 0
  aggressive_move : ℚ := 0
  deriving Repr, DecidableEq

namespace CompetitorAI

/-- `CompetitorAI._decide_competitor_action`.  `random.random()` is drawn from
the stream only when `innovation_focus > 0.6` (Python short-circuits the
conjunction); the next stream index is returned.  The `market_state` argument
is unused by the source body. -/
def _decide_competitor_action (c : Competitor) (_market_state : MarketState)
    (player_price player_market_share : ℚ) (rs : ℕ → ℚ) (i : ℕ) :
    CompAction × ℕ :=
  let price_gap := player_price - c.price
  let price_change :=
    if 5 < |price_gap| then
      if 7/10 < c.price_sensitivity then -price_gap * (3/10) * c.aggressiveness
      else if c.strategy = "Cost_Leader" then -price_gap * (1/2)
      else 0
    else 0
  let (quality_change, i') :=
    if 3/5 < c.innovation_focus then
      (if rs i < 1/5 then (1/20) * c.innovation_focus else 0, i + 1)
    else (0, i)
  let aggressive_move :=
    if c.market_share * (6/5) < player_market_share then (1/10) * c.aggressiveness
    else 0
  ({ price_change := price_change, quality_change := quality_change,
     aggressive_move := aggressive_move }, i')

/-- The body of the `_apply_competitor_actions` loop for one competitor and
its decided action: price is shifted with no clamp, quality is clamped above
at 1, market share is clamped to `[0.01, 0.5]`. -/
def apply_action (c : Competitor) (a : CompAction) : Competitor :=
  { c with
    price := c.price + a.price_change
    quality := min 1 (c.quality + a.quality_change)
    market_share :=
      max (1/100) (min (1/2) (c.market_share + a.aggressive_move * (1/50))) }

/-- The decision pass of `update_competitor_actions`: decide an action per
competitor (recording it as `last_decision`), threading the draw stream. -/
def decide_all (cs : List Competitor) (ms : MarketState)
    (player_price player_market_share : ℚ) (rs : ℕ → ℚ) (i : ℕ) :
    List (Competitor × CompAction) × ℕ :=
  match cs with
  | [] => ([], i)
  | c :: rest =>
    let (a, i') := _decide_competitor_action c ms player_price player_market_share rs i
    let (l, i'') := decide_all rest ms player_price player_market_share rs i'
    (({ c with last_decision := some (a.price_change, a.quality_change, a.aggressive_move) }, a) :: l, i'')

/-- The three aggregated market impact signals of `update_competitor_actions`
(`price_pressure`, `quality_competition`, `market_share_shift`), accumulated
with each competitor's pre-update attributes. -/
def market_impacts (l : List (Competitor × CompAction)) : ℚ × ℚ × ℚ :=
  l.foldl
    (fun acc ca =>
      (acc.1 + ca.2.price_change * ca.1.market_share,
       acc.2.1 + ca.2.quality_change * ca.1.innovation_focus,
       acc.2.2 + ca.2.aggressive_move * ca.1.aggressiveness))
    (0, 0, 0)

/-- `CompetitorAI.update_competitor_actions`: decide all actions, accumulate
the market impact signals, then apply every action (competitor ids are
distinct, so Python's lookup-by-id application equals the pairwise one). -/
def update_competitor_actions (cs : List Competitor) (ms : MarketState)
    (player_price player_market_share : ℚ) (rs : ℕ → ℚ) (i : ℕ) :
    List Competitor × (ℚ × ℚ × ℚ) × ℕ :=
  let (decided, i') := decide_all cs ms player_price player_market_share rs i
  (decided.map fun ca => apply_action ca.1 ca.2, market_impacts decided, i')

end CompetitorAI

/-- One record of `TrendAnalyzer.trend_history`. -/
structure TrendRecord where
  round : ℤ
  seasonal : ℚ
  trend : ℚ
  cyclical : ℚ
  deriving Repr, DecidableEq

namespace TrendAnalyzer

/-- `TrendAnalyzer.seasonal_patterns` (12-month table; `.get(month, 0.0)`). -/
def seasonal_pattern (month : ℤ) : ℚ :=
  if month = 1 then -1/10 else if month = 2 then -3/20
  else if month = 3 then -1/20 else if month = 4 then 0
  else if month = 5 then 1/20 else if month = 6 then 1/10
  else if month = 7 then 3/20 else if month = 8 then 1/10
  else if month = 9 then 1/20 else if month = 10 then 0
  else if month = 11 then 1/10 else if month = 12 then 1/5
  else 0

/-- `TrendAnalyzer._calculate_cyclical_component` (8-round cycle table). -/
def cyclical_component (round_number : ℤ) : ℚ :=
  let p := round_number % 8
  if p = 0 then 1/20 else if p = 1 then 3/100
  else if p = 2 then 1/100 else if p = 3 then -1/100
  else if p = 4 then -3/100 else if p = 5 then -1/20
  else if p = 6 then -3/100 else if p = 7 then 1/100
  else 0

/-- `TrendAnalyzer._calculate_trend_component`: base 0.5% growth plus a
`random.uniform(-0.01, 0.01)` jitter, one draw from the stream. -/
def trend_component (u : ℚ) : ℚ := 1/200 + (-1/100 + (2/100) * u)

/-- `TrendAnalyzer.update_trends`: recompute the three trend factors, write
them into the market state, and append to the bounded (24-entry) history.
Consumes one stream draw for the jitter. -/
def update_trends (history : List TrendRecord) (round_number : ℤ)
    (ms : MarketState) (rs : ℕ → ℚ) (i : ℕ) :
    List TrendRecord × MarketState × ℕ :=
  let month := round_number % 12 + 1
  let seasonal := seasonal_pattern month
  let trend := trend_component (rs i)
  let cyclical := cyclical_component round_number
  let history' := history ++
    [{ round := round_number, seasonal := seasonal, trend := trend, cyclical := cyclical }]
  (if 24 < history'.length then history'.tail else history',
   { ms with trend_factors :=
       { seasonal := seasonal, trend := trend, cyclical := cyclical } },
   i + 1)

end TrendAnalyzer

/-- `PricingEngine` state (untouched by `run_round`). -/
structure PricingEngine where
  base_price : ℚ := 100
  price_history : List ℚ := []
  deriving Repr, DecidableEq

/-- `DemandCalculator` parameters (its computation is real-valued and is
modelled separately over `ℝ`). -/
structure DemandCalculatorCfg where
  base_demand : ℚ := 1000
  price_elasticity : ℚ := -3/2
  deriving Repr, DecidableEq

/-- The `Market` orchestrator's state. -/
structure Market where
  state : MarketState := {}
  demand_calculator : DemandCalculatorCfg := {}
  pricing_engine : PricingEngine := {}
  competitors : List Competitor
  trend_history : List TrendRecord := []
  round_number : ℤ := 0
  deriving Repr, DecidableEq

namespace Market

/-- `Market.advance_round`: trend update, competitor actions (with the
placeholder player price 100 and share 0.15 of
`Market.update_competitor_actions`), then fold the price-pressure signal into
`competition_intensity`, clamped to `[0,1]`. -/
def advance_round (m : Market) (round_number : ℤ) (rs : ℕ → ℚ) (i : ℕ) :
    Market × ℕ :=
  let (th, ms1, i1) := TrendAnalyzer.update_trends m.trend_history round_number m.state rs i
  let (cs, impacts, i2) :=
    CompetitorAI.update_competitor_actions m.competitors ms1 100 (3/20) rs i1
  let price_pressure := impacts.1
  let ci := max 0 (min 1 (ms1.competition_intensity + price_pressure * (1/10)))
  let ms2 := { ms1 with competition_intensity := ci }
  ({ m with state := ms2, competitors := cs, trend_history := th,
            round_number := round_number }, i2)

end Market

/-! ## simulation_engine.py -/

/-- `SimulationConfig` dataclass. -/
structure SimulationConfig where
  max_rounds : ℤ := 10
  num_competitors : ℤ := 3
  initial_market_demand : ℚ := 1000
  market_volatility : ℚ := 1/10
  event_frequency : ℚ := 3/10
  deriving Repr, DecidableEq

/-- A competitor summary built by `_create_initial_competitors` (nested
`financials` dict flattened to its two numeric fields). -/
structure CompetitorSummary where
  id : String
  name : String
  market_share : ℚ
  aggressiveness : ℚ
  revenue : ℚ
  profit : ℚ
  deriving Repr, DecidableEq

/-- `SimulationState` (timestamp omitted). -/
structure SimulationState where
  round_number : ℤ
  player_company : Company
  market : Market
  competitors : List CompetitorSummary
  events : List Event
  kpis : Company.KPIs
  deriving Repr, DecidableEq

/-- One value of the `results` dict built by
`RoundManager.process_decisions`. -/
inductive ProcessedDecision where
  | pricing (price impact : ℚ)
  | investment (amount impact : ℚ)
  | marketing (budget impact : ℚ)
  | unknown
  deriving Repr, DecidableEq

/-- `d.get('impact', default)` on a processed-decision dict (the `unknown`
dict carries only a status marker). -/
def ProcessedDecision.impact_getD : ProcessedDecision → ℚ → ℚ
  | .pricing _ i, _ => i
  | .investment _ i, _ => i
  | .marketing _ i, _ => i
  | .unknown, d => d

/-- The record returned by `RoundManager.process_decisions`. -/
structure ProcessedDecisions where
  decisions_processed : ℕ
  round : ℤ
  results : List (String × ProcessedDecision)
  deriving Repr, DecidableEq

/-- `RoundManager.process_decisions`, over the round manager state after the
round advance that precedes it in `run_round`. -/
def process_decisions (rm : RoundManager) (decisions : List (String × Params)) :
    ProcessedDecisions where
  decisions_processed := decisions.length
  round := rm.current_round
  results := decisions.map fun dp =>
    (dp.1,
     if dp.1 = "pricing" then
       let price := dictGetD dp.2 "price" 100
       .pricing price (RoundManager.pricing_impact price)
     else if dp.1 = "investment" then
       let amount := dictGetD dp.2 "amount" 0
       .investment amount (RoundManager.investment_impact amount)
     else if dp.1 = "marketing" then
       let budget := dictGetD dp.2 "budget" 0
       .marketing budget (RoundManager.marketing_impact budget)
     else .unknown)

/-- The `results` dict of `RoundManager.calculate_round_results` (the
human-readable `summary` string is omitted; `round` is numeric because the
generic event-impact branch can scale it). -/
structure RoundResults where
  round : ℚ
  revenue : ℚ
  costs : ℚ
  profit : ℚ
  market_share : ℚ
  customer_satisfaction : ℚ
  deriving Repr, DecidableEq

/-- `RoundManager.calculate_round_results`.  The `simulation_state` argument
is unused by the source body; revenue starts at 0 and is only set when a
`pricing` result is present, then scaled by a present `marketing` result. -/
def calculate_round_results (rm : RoundManager) (_st : SimulationState)
    (decisions : ProcessedDecisions) : RoundResults :=
  let revenue :=
    match dictLookup decisions.results "pricing" with
    | some pd => 100000 * pd.impact_getD 1
    | none => 0
  let revenue :=
    match dictLookup decisions.results "marketing" with
    | some pd => revenue * (1 + pd.impact_getD 0)
    | none => revenue
  { round := rm.current_round
    revenue := revenue
    costs := 80000
    profit := revenue - 80000
    market_share := 3/20
    customer_satisfaction := 3/4 }

/-- `SimulationEngine._apply_event_impacts`: per impact key present in the
round-results dict, financial metrics are scaled multiplicatively,
share/satisfaction metrics are shifted additively and clamped to `[0,1]`,
any other present key (only `round` here) falls through to the
multiplicative branch; absent keys are skipped. -/
def _apply_event_impacts (rr : RoundResults) (impacts : List (String × ℚ)) :
    RoundResults :=
  impacts.foldl
    (fun rr kv =>
      let impact := kv.2
      if kv.1 = "revenue" then { rr with revenue := rr.revenue * (1 + impact) }
      else if kv.1 = "costs" then { rr with costs := rr.costs * (1 + impact) }
      else if kv.1 = "profit" then { rr with profit := rr.profit * (1 + impact) }
      else if kv.1 = "market_share" then
        { rr with market_share := max 0 (min 1 (rr.market_share + impact)) }
      else if kv.1 = "customer_satisfaction" then
        let cs := max 0 (min 1 (rr.customer_satisfaction + impact))
        { rr with customer_satisfaction := cs }
      else if kv.1 = "round" then { rr with round := rr.round * (1 + impact) }
      else rr)
    rr

/-- `SimulationEngine._apply_round_results_to_company` (every checked key is
present in the round-results record). -/
def _apply_round_results_to_company (c : Company) (rr : RoundResults) : Company :=
  { c with
    financial_data :=
      { c.financial_data with revenue := rr.revenue, costs := rr.costs, profit := rr.profit }
    market_data := { c.market_data with market_share := rr.market_share }
    operations_data :=
      { c.operations_data with customer_satisfaction := rr.customer_satisfaction } }

/-- `SimulationEngine` state. -/
structure SimulationEngine where
  config : SimulationConfig := {}
  round_manager : RoundManager
  event_manager : EventManager := {}
  current_state : Option SimulationState := none
  simulation_history : List SimulationState := []

/-- `SimulationEngine.__init__`: fresh managers, no current state. -/
def SimulationEngine.mk' (config : SimulationConfig) : SimulationEngine where
  config := config
  round_manager := { max_rounds := config.max_rounds, current_round := 0 }
  event_manager := {}
  current_state := none
  simulation_history := []

/-- The record returned by a successful `SimulationEngine.run_round`. -/
structure RunRoundResult where
  round_number : ℤ
  round_results : RoundResults
  triggered_events : List ActiveEvent
  expired_events : List ActiveEvent
  game_state : SimulationState
  is_simulation_over : Bool

/-- Triggering loop of `run_round` over the freshly eligible events. -/
def trigger_all (em : EventManager) (evs : List Event) (round_number : ℤ) :
    EventManager × List ActiveEvent :=
  evs.foldl
    (fun acc e =>
      let (em', d) := acc.1.trigger_event e round_number
      (em', acc.2 ++ [d]))
    (em, [])

/-- `SimulationEngine.run_round`.  Raises (here: returns `Except.error` and
the unchanged engine) when no simulation has been started; otherwise runs the
fixed pipeline: advance round, process decisions, generate/trigger events,
expire active events and collect impacts, advance the market, compute round
results, apply event impacts, push results into the company, refresh the
simulation state, and append a history snapshot.  The loop applying
`market_event`-typed triggered events is dead code (event-data dicts never
carry a `type` key) and is therefore a no-op here.  The market-conditions
mapping passed to `Company.update_state` also carries the (unread, non-
numeric) `economic_indicators` entry in the source; it is dropped here. -/
def SimulationEngine.run_round (eng : SimulationEngine)
    (player_decisions : List (String × Params)) (rs : ℕ → ℚ) (i : ℕ) :
    SimulationEngine × Except String RunRoundResult :=
  match eng.current_state with
  | none =>
    (eng, .error "Simulation not initialized. Call initialize_simulation() first.")
  | some st =>
    let (rm', new_round) := eng.round_manager.advance_round
    let processed := process_decisions rm' player_decisions
    let (random_events, i1) :=
      EventManager.generate_random_events eng.event_manager.event_definitions
        new_round rs i
    let scheduled :=
      EventManager.process_scheduled_events eng.event_manager.event_definitions
        new_round
    let (em1, triggered) :=
      trigger_all eng.event_manager (random_events ++ scheduled) new_round
    let (em2, expired) := em1.process_active_events
    let impacts := em2.get_active_event_impacts
    let (market', _i2) := st.market.advance_round new_round rs i1
    let rr := calculate_round_results rm' st processed
    let rr2 := _apply_event_impacts rr impacts
    let c1 := _apply_round_results_to_company st.player_company rr2
    let mc : MarketConditions :=
      [("demand_level", market'.state.demand_level),
       ("price_index", market'.state.price_index),
       ("market_price", 100),
       ("competition_intensity", market'.state.competition_intensity)]
    let c2 := c1.update_state mc
    let st' := { st with
      round_number := rm'.current_round
      player_company := c2
      market := market'
      events := triggered.map (·.event)
      kpis := c2.get_kpis }
    let eng' := { eng with
      round_manager := rm'
      event_manager := em2
      current_state := some st'
      simulation_history := eng.simulation_history ++ [st'] }
    (eng', .ok
      { round_number := new_round
        round_results := rr2
        triggered_events := triggered
        expired_events := expired
        game_state := st'
        is_simulation_over := rm'.is_simulation_over })

/-! ## market.py: `DemandCalculator.calculate_demand`

The price effect `(price / base_price) ** elasticity` is a genuine real
power with fractional exponent, so this one computation is modelled over `ℝ`
(rational state fields are coerced); it is therefore noncomputable. -/

/-- The `company_factors` dict read by `calculate_demand` (`dict.get` with a
default per key). -/
structure CompanyFactors where
  quality : Option ℝ := none
  brand_value : Option ℝ := none
  customer_satisfaction : Option ℝ := none

namespace DemandCalculator

noncomputable section

/-- `DemandCalculator._calculate_economic_multiplier`. -/
def economic_multiplier (ms : MarketState) : ℝ :=
  (1 + (ms.economic_indicators.gdp_growth : ℝ)) *
    (1 - (ms.economic_indicators.inflation : ℝ) * (1/2)) *
    (1 - (ms.economic_indicators.interest_rate : ℝ) * (3/10))

/-- `DemandCalculator._calculate_trend_effect`. -/
def trend_effect (ms : MarketState) : ℝ := 1 + (ms.trend_factors.trend : ℝ)

/-- `DemandCalculator._calculate_company_effect`. -/
def company_effect (cf : CompanyFactors) : ℝ :=
  (1 + (cf.quality.getD (3/4) - 3/4) * (1/2)) *
    (1 + (cf.brand_value.getD 50 / 100) * (3/10)) *
    (1 + (cf.customer_satisfaction.getD (7/10) - 7/10) * (2/5))

/-- The seasonal multiplier `1.0 + trend_factors['seasonal']`. -/
def seasonal_effect (ms : MarketState) : ℝ := 1 + (ms.trend_factors.seasonal : ℝ)

/-- The cyclical multiplier `1.0 + trend_factors['cyclical']`. -/
def cyclical_effect (ms : MarketState) : ℝ := 1 + (ms.trend_factors.cyclical : ℝ)

/-- The competition scaling `1.0 - competition_intensity * 0.2`. -/
def competition_effect (ms : MarketState) : ℝ :=
  1 - (ms.competition_intensity : ℝ) * (2/10)

/-- `DemandCalculator.calculate_demand`: base demand times the economic,
price (power-law), trend, company, seasonal and cyclical multipliers, scaled
by the competition effect and floored at zero. -/
def calculate_demand (d : DemandCalculatorCfg) (price : ℝ)
    (ms : MarketState) (cf : CompanyFactors) : ℝ :=
  let base_price : ℝ := 100
  let price_effect := (price / base_price) ^ (d.price_elasticity : ℝ)
  let demand := (d.base_demand : ℝ) * economic_multiplier ms * price_effect *
    trend_effect ms * company_effect cf * seasonal_effect ms * cyclical_effect ms
  max 0 (demand * competition_effect ms)

end

end DemandCalculator

/-! ## Specification-side helper definitions -/

/-- The keys of a string-keyed dict in insertion order. -/
def keysOf {β : Type} (l : List (String × β)) : List String := l.map Prod.fst

/-- The additive sum of all values carried by a given key in a list of
(metric, delta) pairs: the per-metric-key independent sum the specification
describes for event-impact aggregation. -/
def sumAt (key : String) (l : List (String × ℚ)) : ℚ :=
  ((l.filter fun kv => kv.1 = key).map Prod.snd).sum

/-- All (metric, delta) pairs of the currently active event instances, in
order. -/
def activeImpactPairs (em : EventManager) : List (String × ℚ) :=
  (em.active_events.map fun e => e.event.impact).flatten

/-- `k` successive calls to `RoundManager.advance_round`. -/
def advanceTimes (rm : RoundManager) : ℕ → RoundManager
  | 0 => rm
  | k + 1 => advanceTimes (rm.advance_round).1 k

/-! ## Concrete fixtures used by witnesses and counterexamples -/

/-- A freshly constructed company with all dataclass defaults. -/
def fresh_company : Company := { id := "player_company", name := "Player Company" }

/-- A company with non-positive revenue and assets. -/
def neg_financial_company : Company :=
  { id := "c1", name := "C1", financial_data := { revenue := -5, assets := -3 } }

/-- A custom event whose duration is zero (addable via `add_custom_event`
and triggerable like any other definition). -/
def zero_duration_event : Event :=
  { id := "flash", name := "Flash", description := "Zero-duration event",
    type := .decision, probability := 1,
    impact := [("revenue", 1/10)], duration := 0, conditions := [] }

/-- An event manager holding one active instance with remaining duration 0,
obtained by triggering the zero-duration event on a fresh manager. -/
def em_zero : EventManager :=
  (EventManager.trigger_event {} zero_duration_event 1).1

/-- An event manager with two active instances of remaining durations 1 and
2 (a triggered `regulatory_change` and `market_crash`). -/
def em_pair : EventManager :=
  ((EventManager.trigger_event {} regulatory_change 5).1.trigger_event market_crash 5).1

/-- A cost-leader-style competitor record (archetype values, zero jitter). -/
def cost_leader : Competitor :=
  { id := "competitor_1", name := "Competitor Company 1", strategy := "Cost_Leader",
    aggressiveness := 4/5, price_sensitivity := 9/10, innovation_focus := 3/10,
    market_share := 1/12, price := 100, quality := 7/10 }

/-- The default market state. -/
def ms_default : MarketState := {}

/-- A market state whose long-term trend factor is `-1`, collapsing the
trend multiplier of the demand formula to zero. -/
def ms_trend_collapse : MarketState := { trend_factors := { trend := -1 } }

/-- A draw stream that always returns 0. -/
def zero_stream : ℕ → ℚ := fun _ => 0

/-- The default demand-calculator configuration. -/
def cfg_default : DemandCalculatorCfg := {}

/-- Empty company factors (every key absent, so every default applies). -/
def cf_empty : CompanyFactors := {}

/-! ## Helper lemmas -/

/-- A value read from an all-nonnegative parameter dict is nonnegative. -/
lemma dictGetD_zero_nonneg (ps : Params) (k : String)
    (h : ∀ kv ∈ ps, 0 ≤ kv.2) : 0 ≤ dictGetD ps k 0 := by
  induction ps with
  | nil => simp [dictGetD, dictLookup]
  | cons kv t ih =>
    have hkv := h kv (List.mem_cons_self kv t)
    have ht : ∀ kv ∈ t, 0 ≤ kv.2 := fun x hx => h x (List.mem_cons_of_mem kv hx)
    by_cases hk : kv.1 = k
    · simp [dictGetD, dictLookup, hk, hkv]
    · simpa [dictGetD, dictLookup, hk] using ih ht

/-- `advance_round` never changes the round bound. -/
lemma advanceTimes_max_rounds (rm : RoundManager) (k : ℕ) :
    (advanceTimes rm k).max_rounds = rm.max_rounds := by
  induction k generalizing rm with
  | zero => rfl
  | succ k ih =>
    rw [advanceTimes, ih]
    unfold RoundManager.advance_round
    by_cases h : rm.current_round < rm.max_rounds <;> simp [h]

/-- Round counter after `k` advances from a counter within bounds. -/
lemma advanceTimes_current (m c : ℤ) (k : ℕ) (h0 : 0 ≤ c) (h1 : c ≤ m) :
    (advanceTimes { max_rounds := m, current_round := c } k).current_round
      = min (c + k) m := by
  induction k generalizing c with
  | zero => simp [advanceTimes]; omega
  | succ k ih =>
    rw [advanceTimes]
    unfold RoundManager.advance_round
    by_cases hlt : c < m
    · simp only [hlt, if_true]
      rw [ih (c + 1) (by omega) (by omega)]
      push_cast
      omega
    · simp only [hlt, if_false]
      rw [ih c h0 h1]
      push_cast
      omega

/-- Looking a key up after a `dictBump`. -/
lemma dictLookup_dictBump (t : List (String × ℚ)) (k : String) (v : ℚ) (key : String) :
    dictLookup (dictBump t k v) key =
      if key = k then some ((dictLookup t k).getD 0 + v) else dictLookup t key := by
  induction t with
  | nil =>
    by_cases h : key = k
    · subst h
      simp [dictBump, dictLookup]
    · simp only [dictBump, dictLookup]
      rw [if_neg (fun hh => h hh.symm), if_neg h]
  | cons p t ih =>
    by_cases h1 : p.1 = k
    · by_cases h2 : key = k
      · simp [dictBump, dictLookup, h1, h2, h1.trans h2.symm]
      · have h3 : ¬ p.1 = key := fun hh => h2 (hh.symm.trans h1)
        simp only [dictBump, dictLookup, h1, if_true, if_neg h2, if_neg h3]
        rw [if_neg (fun hh : k = key => h2 hh.symm),
          if_neg (fun hh : k = key => h2 hh.symm)]
    · by_cases h2 : p.1 = key
      · have h3 : ¬ key = k := fun hh => h1 (h2.trans hh)
        simp [dictBump, dictLookup, h1, h2, h3]
      · simp [dictBump, dictLookup, h1, h2, ih]

/-- `sumAt` over a cons. -/
lemma sumAt_cons (key : String) (kv : String × ℚ) (l : List (String × ℚ)) :
    sumAt key (kv :: l) = (if kv.1 = key then kv.2 else 0) + sumAt key l := by
  by_cases h : kv.1 = key <;> simp [sumAt, List.filter_cons, h]

/-- `sumAt` distributes over append. -/
lemma sumAt_append (key : String) (l1 l2 : List (String × ℚ)) :
    sumAt key (l1 ++ l2) = sumAt key l1 + sumAt key l2 := by
  simp [sumAt, List.filter_append]

/-- Keys of an appended dict-pair list. -/
lemma keysOf_append {β : Type} (l1 l2 : List (String × β)) :
    keysOf (l1 ++ l2) = keysOf l1 ++ keysOf l2 := by
  simp [keysOf]

/-- Characterization of the impact-aggregation fold: looking up a key in the
folded totals dict yields the per-key additive sum of all pairs carrying it
(plus whatever the accumulator already held), and `none` when the key occurs
nowhere. -/
lemma dictLookup_foldl_bump (l : List (String × ℚ)) (t : List (String × ℚ))
    (key : String) :
    dictLookup (l.foldl (fun t kv => dictBump t kv.1 kv.2) t) key =
      if (dictLookup t key).isSome = true ∨ key ∈ keysOf l
      then some ((dictLookup t key).getD 0 + sumAt key l) else none := by
  induction l generalizing t with
  | nil => cases h : dictLookup t key <;> simp [h, sumAt, keysOf]
  | cons kv l ih =>
    rw [List.foldl_cons, ih, dictLookup_dictBump]
    by_cases h1 : key = kv.1
    · have hmem : key ∈ keysOf (kv :: l) := by simp [keysOf, h1]
      simp only [h1, if_true, hmem, or_true, Option.isSome_some, true_or,
        Option.getD_some, sumAt_cons, if_pos h1.symm]
      rw [← h1]
      ring_nf
      rw [if_pos (Or.inr hmem)]
    · have h2 : ¬ kv.1 = key := fun hh => h1 hh.symm
      have hmem : (key ∈ keysOf (kv :: l)) ↔ key ∈ keysOf l := by
        simp [keysOf, h1]
      simp only [h1, if_false, sumAt_cons, if_neg h2, zero_add]
      by_cases h3 : (dictLookup t key).isSome = true ∨ key ∈ keysOf l
      · rw [if_pos h3, if_pos]
        rcases h3 with h3 | h3
        · exact Or.inl h3
        · exact Or.inr (hmem.mpr h3)
      · rw [if_neg h3, if_neg]
        intro hc
        rcases hc with hc | hc
        · exact h3 (Or.inl hc)
        · exact h3 (Or.inr (hmem.mp hc))

/-- `get_active_event_impacts` is the impact fold over the concatenated
impact pairs of the active instances. -/
lemma get_active_event_impacts_eq_fold (em : EventManager) :
    em.get_active_event_impacts =
      (activeImpactPairs em).foldl (fun t kv => dictBump t kv.1 kv.2) [] := by
  unfold EventManager.get_active_event_impacts activeImpactPairs
  rw [List.foldl_flatten, List.foldl_map]

/-- The combined impacts dict, read at any key, is the per-key additive sum
of all active instances' impacts at that key (absent keys stay absent). -/
lemma lookup_active_impacts (em : EventManager) (key : String) :
    dictLookup em.get_active_event_impacts key =
      if key ∈ keysOf (activeImpactPairs em)
      then some (sumAt key (activeImpactPairs em)) else none := by
  rw [get_active_event_impacts_eq_fold, dictLookup_foldl_bump]
  simp [dictLookup]

/-- Triggering appends the event's impact pairs. -/
lemma activeImpactPairs_trigger (em : EventManager) (E : Event) (r : ℤ) :
    activeImpactPairs (em.trigger_event E r).1 = activeImpactPairs em ++ E.impact := by
  simp [activeImpactPairs, EventManager.trigger_event]

end UseCaseSim

/-! ## Claim theorems -/

namespace UseCaseSim

/-- C2: for every company and every market-conditions mapping, immediately
after `Company.update_state` the stored financials satisfy
`profit = revenue - costs` exactly: `update_financials` recomputes profit
from the freshly stored revenue and costs. -/
theorem update_state_profit_invariant (c : Company) (mc : MarketConditions) :
    (c.update_state mc).financial_data.profit =
      (c.update_state mc).financial_data.revenue -
        (c.update_state mc).financial_data.costs := by
  rfl

/-- C10: `Company.get_kpis` is total: the profit margin is 0 unless revenue
is strictly positive (in which case it is `profit / revenue`), and the ROI is
0 unless assets are strictly positive (in which case it is
`profit / assets`); no division by a non-positive quantity is ever taken. -/
theorem get_kpis_total (c : Company) :
    (c.financial_data.revenue ≤ 0 → (c.get_kpis).profit_margin = 0) ∧
    (c.financial_data.assets ≤ 0 → (c.get_kpis).roi = 0) ∧
    (0 < c.financial_data.revenue →
      (c.get_kpis).profit_margin = c.financial_data.profit / c.financial_data.revenue) ∧
    (0 < c.financial_data.assets →
      (c.get_kpis).roi = c.financial_data.profit / c.financial_data.assets) := by
  refine ⟨fun h => ?_, fun h => ?_, fun h => ?_, fun h => ?_⟩
  · simp [Company.get_kpis, not_lt.mpr h]
  · simp [Company.get_kpis, not_lt.mpr h]
  · simp [Company.get_kpis, h]
  · simp [Company.get_kpis, h]

/-- C10 witness: on a company with revenue `-5` and assets `-3`, both KPI
ratios evaluate to 0. -/
theorem get_kpis_total_witness :
    (neg_financial_company.get_kpis).profit_margin = 0 ∧
    (neg_financial_company.get_kpis).roi = 0 :=
  ⟨(get_kpis_total neg_financial_company).1 (by norm_num [neg_financial_company]),
   (get_kpis_total neg_financial_company).2.1 (by norm_num [neg_financial_company])⟩

/-- C8: `Company.make_decision` with an unknown decision kind, or with some
required parameter missing from the parameter dict, reports failure and
leaves the company (decision history included) completely unchanged. -/
theorem make_decision_invalid_no_mutation (c : Company) (dt : String) (ps : Params)
    (h : Company.required_params dt = none ∨
      ∃ p ∈ (Company.required_params dt).getD [], dictLookup ps p = none) :
    c.make_decision dt ps = (c, false) := by
  have hv : Company._validate_decision dt ps = false := by
    rcases h with h | ⟨p, hp, hnone⟩
    · simp [Company._validate_decision, h]
    · unfold Company._validate_decision
      cases hr : Company.required_params dt with
      | none => rfl
      | some req =>
        rw [hr] at hp
        simp only [Option.getD_some] at hp
        cases hall : req.all fun p => dictHas ps p with
        | false => simpa using hall
        | true =>
          exfalso
          have := List.all_eq_true.mp hall p hp
          simp [dictHas, hnone] at this
  simp [Company.make_decision, Company.dm_make_decision, hv]

/-- C8 witness: a `price_change` decision with no `new_price` parameter fails
on a fresh company and leaves it unchanged (decision history still empty). -/
theorem make_decision_invalid_no_mutation_witness :
    fresh_company.make_decision "price_change" [] = (fresh_company, false) :=
  make_decision_invalid_no_mutation fresh_company "price_change" []
    (Or.inr ⟨"new_price", by simp [Company.required_params], rfl⟩)

/-- C4: event impact aggregation is order-independent and per-key additive:
triggering A then B yields the same combined impact mapping (same lookup at
every key) as triggering B then A; in general the combined mapping binds each
key occurring in some active instance's impact dict to the independent
additive sum of all active impacts at that key; concretely, a triggered
`market_crash` plus `tech_breakthrough` combine to revenue −0.3,
market share −0.1, efficiency +0.2, costs −0.1 with no cross-contamination. -/
theorem event_impacts_commutative_additive :
    (∀ (em : EventManager) (A B : Event) (rA rB : ℤ) (key : String),
      dictLookup (((em.trigger_event A rA).1.trigger_event B rB).1.get_active_event_impacts)
          key =
        dictLookup (((em.trigger_event B rB).1.trigger_event A rA).1.get_active_event_impacts)
          key) ∧
    (∀ (em : EventManager) (key : String),
      dictLookup em.get_active_event_impacts key =
        if key ∈ keysOf (activeImpactPairs em)
        then some (sumAt key (activeImpactPairs em)) else none) ∧
    ((({} : EventManager).trigger_event market_crash 1).1.trigger_event
        tech_breakthrough 1).1.get_active_event_impacts =
      [("revenue", -3/10), ("market_share", -1/10), ("efficiency", 1/5),
       ("costs", -1/10)] := by
  refine ⟨?_, lookup_active_impacts, ?_⟩
  · intro em A B rA rB key
    rw [lookup_active_impacts, lookup_active_impacts,
      activeImpactPairs_trigger, activeImpactPairs_trigger,
      activeImpactPairs_trigger, activeImpactPairs_trigger]
    rw [keysOf_append, keysOf_append, keysOf_append, keysOf_append,
      sumAt_append, sumAt_append, sumAt_append, sumAt_append]
    refine if_congr ?_ ?_ rfl
    · simp only [List.mem_append]
      tauto
    · congr 1
      ring
  · rfl

/-- C6: calling `SimulationEngine.run_round` before a simulation has been
started surfaces the not-started error to the caller and performs no
mutation: the engine (round manager, event manager, history) is returned
unchanged. -/
theorem run_round_not_started (eng : SimulationEngine)
    (d : List (String × Params)) (rs : ℕ → ℚ) (i : ℕ)
    (h : eng.current_state = none) :
    (eng.run_round d rs i).2 =
      Except.error "Simulation not initialized. Call initialize_simulation() first." ∧
    (eng.run_round d rs i).1 = eng ∧
    (eng.run_round d rs i).1.round_manager = eng.round_manager ∧
    (eng.run_round d rs i).1.event_manager = eng.event_manager ∧
    (eng.run_round d rs i).1.simulation_history = eng.simulation_history := by
  unfold SimulationEngine.run_round
  rw [h]
  exact ⟨rfl, rfl, rfl, rfl, rfl⟩

/-- C6 witness: on a freshly constructed engine (no simulation started),
`run_round` errors out and changes nothing. -/
theorem run_round_not_started_witness :
    ((SimulationEngine.mk' {}).run_round [] zero_stream 0).2 =
      Except.error "Simulation not initialized. Call initialize_simulation() first." ∧
    ((SimulationEngine.mk' {}).run_round [] zero_stream 0).1 = SimulationEngine.mk' {} ∧
    ((SimulationEngine.mk' {}).run_round [] zero_stream 0).1.round_manager =
      (SimulationEngine.mk' {}).round_manager ∧
    ((SimulationEngine.mk' {}).run_round [] zero_stream 0).1.event_manager =
      (SimulationEngine.mk' {}).event_manager ∧
    ((SimulationEngine.mk' {}).run_round [] zero_stream 0).1.simulation_history =
      (SimulationEngine.mk' {}).simulation_history :=
  run_round_not_started (SimulationEngine.mk' {}) [] zero_stream 0 rfl

/-- C9 counterexample: `_apply_competitor_actions` does not clamp price.  A
cost-leader-style competitor (price 100, price sensitivity 0.9,
aggressiveness 0.8) reacting to a player price of 1,000,000 in one
`update_competitor_actions` round ends with price `-239876 < 0`, outside any
valid price range. -/
theorem competitor_price_unclamped_cex :
    ((CompetitorAI.update_competitor_actions [cost_leader] ms_default 1000000 (3/20)
        zero_stream 0).1.map fun c => c.price) = [-239876] ∧
    (-239876 : ℚ) < 0 := by
  constructor
  · simp only [CompetitorAI.update_competitor_actions, CompetitorAI.decide_all,
      CompetitorAI._decide_competitor_action, CompetitorAI.apply_action, cost_leader]
    norm_num
  · norm_num

/-- C9 (amended): applying a round's decided competitor actions clamps
quality from above at 1 (and keeps it nonnegative, since decided
quality changes are never negative) and clamps market share into
`[0.01, 0.5]`, for any action magnitude — but price is shifted by the
decided price change with no clamp at all, so it can leave any valid range
(become negative), as the counterexample shows. -/
theorem competitor_apply_action_clamps (c : Competitor) (a : CompAction)
    (hq0 : 0 ≤ c.quality) (hqc : 0 ≤ a.quality_change) :
    ((CompetitorAI.apply_action c a).quality ≤ 1 ∧
      0 ≤ (CompetitorAI.apply_action c a).quality) ∧
    (1/100 ≤ (CompetitorAI.apply_action c a).market_share ∧
      (CompetitorAI.apply_action c a).market_share ≤ 1/2) ∧
    (CompetitorAI.apply_action c a).price = c.price + a.price_change ∧
    (∀ (ms : MarketState) (pp psh : ℚ) (rs : ℕ → ℚ) (i : ℕ),
      0 ≤ (CompetitorAI._decide_competitor_action c ms pp psh rs i).1.quality_change) := by
  refine ⟨⟨min_le_left _ _, le_min (by norm_num) (by linarith)⟩,
    ⟨le_max_left _ _, max_le (by norm_num) (min_le_left _ _)⟩, rfl, ?_⟩
  intro ms pp psh rs i
  unfold CompetitorAI._decide_competitor_action
  simp only
  split_ifs with h1 h2 <;> simp only
  · have hnn : (0 : ℚ) ≤ c.innovation_focus := by linarith
    positivity
  · exact le_refl 0
  · exact le_refl 0

/-- C9 witness: the clamp facts evaluated on the concrete cost-leader
competitor and an action with a large negative price change. -/
theorem competitor_apply_action_clamps_witness :
    ((CompetitorAI.apply_action cost_leader
        { price_change := -239976, quality_change := 1/20, aggressive_move := 3 }).quality ≤ 1 ∧
      0 ≤ (CompetitorAI.apply_action cost_leader
        { price_change := -239976, quality_change := 1/20, aggressive_move := 3 }).quality) ∧
    (1/100 ≤ (CompetitorAI.apply_action cost_leader
        { price_change := -239976, quality_change := 1/20, aggressive_move := 3 }).market_share ∧
      (CompetitorAI.apply_action cost_leader
        { price_change := -239976, quality_change := 1/20, aggressive_move := 3 }).market_share ≤ 1/2) ∧
    (CompetitorAI.apply_action cost_leader
        { price_change := -239976, quality_change := 1/20, aggressive_move := 3 }).price =
      cost_leader.price +
        ({ price_change := -239976, quality_change := 1/20, aggressive_move := 3 } : CompAction).price_change ∧
    (∀ (ms : MarketState) (pp psh : ℚ) (rs : ℕ → ℚ) (i : ℕ),
      0 ≤ (CompetitorAI._decide_competitor_action cost_leader ms pp psh rs i).1.quality_change) :=
  competitor_apply_action_clamps cost_leader
    { price_change := -239976, quality_change := 1/20, aggressive_move := 3 }
    (by norm_num [cost_leader]) (by norm_num)

/-- C5 counterexample: for a market state whose trend factor is −1 the trend
multiplier is zero, so demand is 0 at every price: with prices 100 < 200 the
demand at the lower price is not strictly greater, refuting strict
price-monotonicity for arbitrary market states. -/
theorem calculate_demand_not_strictly_decreasing_cex :
    DemandCalculator.calculate_demand cfg_default 100 ms_trend_collapse cf_empty = 0 ∧
    DemandCalculator.calculate_demand cfg_default 200 ms_trend_collapse cf_empty = 0 ∧
    ¬ (DemandCalculator.calculate_demand cfg_default 200 ms_trend_collapse cf_empty <
        DemandCalculator.calculate_demand cfg_default 100 ms_trend_collapse cf_empty) := by
  have h0 : DemandCalculator.trend_effect ms_trend_collapse = 0 := by
    simp [DemandCalculator.trend_effect, ms_trend_collapse]
  have hz : ∀ p : ℝ,
      DemandCalculator.calculate_demand cfg_default p ms_trend_collapse cf_empty = 0 := by
    intro p
    simp only [DemandCalculator.calculate_demand, h0]
    ring_nf
    simp
  refine ⟨hz 100, hz 200, ?_⟩
  rw [hz 100, hz 200]
  exact lt_irrefl 0

/-- C5 (amended): `calculate_demand` is a pure deterministic function of its
arguments with result always ≥ 0; and demand is strictly decreasing in price
(lower price ⇒ strictly higher demand) whenever the elasticity is negative
and every other multiplier — base demand, economic, trend, company,
seasonal, cyclical and competition — is strictly positive; if some
multiplier vanishes or turns negative (e.g. trend factor ≤ −1) the zero
floor makes demand constant, as the counterexample shows. -/
theorem calculate_demand_props (d : DemandCalculatorCfg) (ms : MarketState)
    (cf : CompanyFactors) (p1 p2 : ℝ)
    (he : (d.price_elasticity : ℝ) < 0)
    (hb : 0 < ((d.base_demand : ℚ) : ℝ))
    (hec : 0 < DemandCalculator.economic_multiplier ms)
    (htr : 0 < DemandCalculator.trend_effect ms)
    (hco : 0 < DemandCalculator.company_effect cf)
    (hse : 0 < DemandCalculator.seasonal_effect ms)
    (hcy : 0 < DemandCalculator.cyclical_effect ms)
    (hci : 0 < DemandCalculator.competition_effect ms)
    (hp1 : 0 < p1) (h12 : p1 < p2) :
    (∀ (q : ℝ) (ms' : MarketState) (cf' : CompanyFactors),
        DemandCalculator.calculate_demand d q ms' cf' =
          DemandCalculator.calculate_demand d q ms' cf' ∧
        0 ≤ DemandCalculator.calculate_demand d q ms' cf') ∧
    DemandCalculator.calculate_demand d p2 ms cf <
      DemandCalculator.calculate_demand d p1 ms cf := by
  refine ⟨fun q ms' cf' => ⟨rfl, le_max_left _ _⟩, ?_⟩
  have hp2 : 0 < p2 := hp1.trans h12
  have hpe1 : (0 : ℝ) < (p1 / 100) ^ (d.price_elasticity : ℝ) :=
    Real.rpow_pos_of_pos (by positivity) _
  have hpe2 : (0 : ℝ) < (p2 / 100) ^ (d.price_elasticity : ℝ) :=
    Real.rpow_pos_of_pos (by positivity) _
  have hlt : (p2 / 100) ^ (d.price_elasticity : ℝ) <
      (p1 / 100) ^ (d.price_elasticity : ℝ) :=
    Real.rpow_lt_rpow_of_neg (by positivity)
      ((div_lt_div_iff_of_pos_right (by norm_num)).mpr h12) he
  simp only [DemandCalculator.calculate_demand]
  rw [max_eq_right (by positivity), max_eq_right (by positivity)]
  gcongr

/-- C5 witness: the positivity hypotheses hold at the default configuration
and default market state with prices 100 < 200, so demand at price 200 is
strictly below demand at price 100. -/
theorem calculate_demand_props_witness :
    (∀ (q : ℝ) (ms' : MarketState) (cf' : CompanyFactors),
        DemandCalculator.calculate_demand cfg_default q ms' cf' =
          DemandCalculator.calculate_demand cfg_default q ms' cf' ∧
        0 ≤ DemandCalculator.calculate_demand cfg_default q ms' cf') ∧
    DemandCalculator.calculate_demand cfg_default 200 ms_default cf_empty <
      DemandCalculator.calculate_demand cfg_default 100 ms_default cf_empty :=
  calculate_demand_props cfg_default ms_default cf_empty 100 200
    (by norm_num [cfg_default])
    (by norm_num [cfg_default])
    (by norm_num [DemandCalculator.economic_multiplier, ms_default])
    (by norm_num [DemandCalculator.trend_effect, ms_default])
    (by norm_num [DemandCalculator.company_effect, cf_empty])
    (by norm_num [DemandCalculator.seasonal_effect, ms_default])
    (by norm_num [DemandCalculator.cyclical_effect, ms_default])
    (by norm_num [DemandCalculator.competition_effect, ms_default])
    (by norm_num) (by norm_num)

/-- C7: starting from a fresh `RoundManager` with `max_rounds = m ≥ 1`,
after `k` calls to `advance_round` the current round is `min k m` (the
counter clamps at the bound instead of passing it), and
`is_simulation_over` answers true exactly when at least `m` advances have
happened, i.e. when the current round has reached `m`. -/
theorem round_manager_clamp (m : ℤ) (hm : 1 ≤ m) (k : ℕ) :
    (advanceTimes { max_rounds := m, current_round := 0 } k).current_round
      = min (k : ℤ) m ∧
    ((advanceTimes { max_rounds := m, current_round := 0 } k).is_simulation_over = true
      ↔ m ≤ (k : ℤ)) := by
  have hc := advanceTimes_current m 0 k le_rfl (by omega)
  have hmax := advanceTimes_max_rounds { max_rounds := m, current_round := 0 } k
  constructor
  · simpa using hc
  · rw [RoundManager.is_simulation_over, hmax, hc]
    simp only [decide_eq_true_eq]
    omega

/-- C1 counterexample: on a fresh company, `update_state` with
`price_index = 10` (price 1000 against market price 100) drives
`customer_satisfaction` to `-29/8`, strictly below the claimed `[0,1]`
bound: the code only clamps satisfaction from above. -/
theorem update_state_cs_negative_cex :
    (fresh_company.update_state
        [("price_index", 10)]).operations_data.customer_satisfaction = -29/8 ∧
    (-29/8 : ℚ) < 0 := by
  have h : (fresh_company.update_state
      [("price_index", 10)]).operations_data.customer_satisfaction =
        min 1 ((3/4 + (1 - |(10 : ℚ) * 100 - 100| / 100)) / 2) := rfl
  have habs : |(10 : ℚ) * 100 - 100| = 900 := by
    rw [abs_of_nonneg] <;> norm_num
  constructor
  · rw [h, habs, min_eq_right (by norm_num)]
    norm_num
  · norm_num

/-- C1 (amended): every `[0,1]`-type bound that the code actually enforces
holds for arbitrarily large nonnegative inputs: after any decision (with
nonnegative parameters) market share stays in `[0, 0.5]` — in particular a
marketing budget of any magnitude cannot push it past 0.5 — and quality,
efficiency, utilization and customer satisfaction keep their `[0,1]` bounds;
after `update_state` with nonnegative demand and positive market price,
utilization lands in `[0,1]`, market share / quality / efficiency keep their
bounds, and customer satisfaction is clamped to at most 1 but is only
nonnegative when the effective price deviates from the market price by at
most the market price itself (otherwise it can fall below 0, as the
counterexample shows). -/
theorem bounded_attributes_after_ops (c : Company) (dt : String) (ps : Params)
    (mc : MarketConditions)
    (hms0 : 0 ≤ c.market_data.market_share)
    (hms1 : c.market_data.market_share ≤ 1/2)
    (hq0 : 0 ≤ c.operations_data.quality) (hq1 : c.operations_data.quality ≤ 1)
    (he0 : 0 ≤ c.operations_data.efficiency) (he1 : c.operations_data.efficiency ≤ 1)
    (hu0 : 0 ≤ c.operations_data.utilization) (hu1 : c.operations_data.utilization ≤ 1)
    (hc0 : 0 ≤ c.operations_data.customer_satisfaction)
    (hc1 : c.operations_data.customer_satisfaction ≤ 1)
    (hps : ∀ kv ∈ ps, 0 ≤ kv.2)
    (hd : 0 ≤ dictGetD mc "demand_level" 1000)
    (hmp : 0 < dictGetD mc "market_price" 100) :
    ((0 ≤ ((c.make_decision dt ps).1).market_data.market_share ∧
        ((c.make_decision dt ps).1).market_data.market_share ≤ 1/2) ∧
      (0 ≤ ((c.make_decision dt ps).1).operations_data.quality ∧
        ((c.make_decision dt ps).1).operations_data.quality ≤ 1) ∧
      (0 ≤ ((c.make_decision dt ps).1).operations_data.efficiency ∧
        ((c.make_decision dt ps).1).operations_data.efficiency ≤ 1) ∧
      (0 ≤ ((c.make_decision dt ps).1).operations_data.utilization ∧
        ((c.make_decision dt ps).1).operations_data.utilization ≤ 1) ∧
      (0 ≤ ((c.make_decision dt ps).1).operations_data.customer_satisfaction ∧
        ((c.make_decision dt ps).1).operations_data.customer_satisfaction ≤ 1)) ∧
    ((0 ≤ (c.update_state mc).market_data.market_share ∧
        (c.update_state mc).market_data.market_share ≤ 1/2) ∧
      (0 ≤ (c.update_state mc).operations_data.quality ∧
        (c.update_state mc).operations_data.quality ≤ 1) ∧
      (0 ≤ (c.update_state mc).operations_data.efficiency ∧
        (c.update_state mc).operations_data.efficiency ≤ 1) ∧
      (0 ≤ (c.update_state mc).operations_data.utilization ∧
        (c.update_state mc).operations_data.utilization ≤ 1) ∧
      (c.update_state mc).operations_data.customer_satisfaction ≤ 1 ∧
      (|dictGetD mc "price_index" 1 * 100 - dictGetD mc "market_price" 100| ≤
          dictGetD mc "market_price" 100 →
        0 ≤ (c.update_state mc).operations_data.customer_satisfaction)) := by
  have hb : 0 ≤ dictGetD ps "budget" 0 := dictGetD_zero_nonneg ps "budget" hps
  have hinv : 0 ≤ dictGetD ps "investment" 0 :=
    dictGetD_zero_nonneg ps "investment" hps
  constructor
  · unfold Company.make_decision Company.dm_make_decision
    by_cases hv : Company._validate_decision dt ps
    · simp only [hv, if_true]
      unfold Company._apply_decision_impact
      split_ifs with h1 h2 h3 h4 h5 h6
      · exact ⟨⟨hms0, hms1⟩, ⟨hq0, hq1⟩, ⟨he0, he1⟩, ⟨hu0, hu1⟩, hc0, hc1⟩
      · simp only [Company.om_update_capacity]
        exact ⟨⟨hms0, hms1⟩, ⟨hq0, hq1⟩, ⟨he0, he1⟩, ⟨hu0, hu1⟩, hc0, hc1⟩
      · refine ⟨⟨?_, ?_⟩, ⟨hq0, hq1⟩, ⟨he0, he1⟩, ⟨hu0, hu1⟩, hc0, hc1⟩
        · exact le_min (by norm_num) (by positivity)
        · exact min_le_left _ _
      · simp only [Company.om_update_quality]
        refine ⟨⟨hms0, hms1⟩, ⟨?_, ?_⟩, ⟨he0, he1⟩, ⟨hu0, hu1⟩, hc0, hc1⟩
        · refine le_min (by norm_num) ?_
          have : 0 ≤ min (dictGetD ps "investment" 0 / 50000) (1/10) :=
            le_min (by positivity) (by norm_num)
          linarith
        · exact min_le_left _ _
      · exact ⟨⟨hms0, hms1⟩, ⟨hq0, hq1⟩, ⟨he0, he1⟩, ⟨hu0, hu1⟩, hc0, hc1⟩
      · exact ⟨⟨hms0, hms1⟩, ⟨hq0, hq1⟩, ⟨he0, he1⟩, ⟨hu0, hu1⟩, hc0, hc1⟩
      · exact ⟨⟨hms0, hms1⟩, ⟨hq0, hq1⟩, ⟨he0, he1⟩, ⟨hu0, hu1⟩, hc0, hc1⟩
    · simp only [hv, if_false]
      exact ⟨⟨hms0, hms1⟩, ⟨hq0, hq1⟩, ⟨he0, he1⟩, ⟨hu0, hu1⟩, hc0, hc1⟩
  · unfold Company.update_state Company.om_calculate_utilization
      Company.om_update_customer_satisfaction Company._record_performance
    simp only
    refine ⟨⟨hms0, hms1⟩, ⟨hq0, hq1⟩, ⟨he0, he1⟩, ⟨?_, ?_⟩, ?_, ?_⟩
    · split_ifs with hcap
      · exact le_min (by norm_num) (by positivity)
      · exact le_refl 0
    · split_ifs with hcap
      · exact min_le_left _ _
      · norm_num
    · exact min_le_left _ _
    · intro habs
      refine le_min (by norm_num) ?_
      have hdiv : |dictGetD mc "price_index" 1 * 100 - dictGetD mc "market_price" 100| /
          dictGetD mc "market_price" 100 ≤ 1 := by
        rw [div_le_one hmp]
        exact habs
      linarith

/-- C1 witness: a fresh company given a huge (10^12) marketing budget keeps
market share at most 0.5, and a default-conditions `update_state` keeps
every bound including nonnegative customer satisfaction. -/
theorem bounded_attributes_after_ops_witness :
    ((0 ≤ ((fresh_company.make_decision "marketing_campaign"
          [("budget", 1000000000000)]).1).market_data.market_share ∧
        ((fresh_company.make_decision "marketing_campaign"
          [("budget", 1000000000000)]).1).market_data.market_share ≤ 1/2) ∧
      (0 ≤ ((fresh_company.make_decision "marketing_campaign"
          [("budget", 1000000000000)]).1).operations_data.quality ∧
        ((fresh_company.make_decision "marketing_campaign"
          [("budget", 1000000000000)]).1).operations_data.quality ≤ 1) ∧
      (0 ≤ ((fresh_company.make_decision "marketing_campaign"
          [("budget", 1000000000000)]).1).operations_data.efficiency ∧
        ((fresh_company.make_decision "marketing_campaign"
          [("budget", 1000000000000)]).1).operations_data.efficiency ≤ 1) ∧
      (0 ≤ ((fresh_company.make_decision "marketing_campaign"
          [("budget", 1000000000000)]).1).operations_data.utilization ∧
        ((fresh_company.make_decision "marketing_campaign"
          [("budget", 1000000000000)]).1).operations_data.utilization ≤ 1) ∧
      (0 ≤ ((fresh_company.make_decision "marketing_campaign"
          [("budget", 1000000000000)]).1).operations_data.customer_satisfaction ∧
        ((fresh_company.make_decision "marketing_campaign"
          [("budget", 1000000000000)]).1).operations_data.customer_satisfaction ≤ 1)) ∧
    ((0 ≤ (fresh_company.update_state []).market_data.market_share ∧
        (fresh_company.update_state []).market_data.market_share ≤ 1/2) ∧
      (0 ≤ (fresh_company.update_state []).operations_data.quality ∧
        (fresh_company.update_state []).operations_data.quality ≤ 1) ∧
      (0 ≤ (fresh_company.update_state []).operations_data.efficiency ∧
        (fresh_company.update_state []).operations_data.efficiency ≤ 1) ∧
      (0 ≤ (fresh_company.update_state []).operations_data.utilization ∧
        (fresh_company.update_state []).operations_data.utilization ≤ 1) ∧
      (fresh_company.update_state []).operations_data.customer_satisfaction ≤ 1 ∧
      (|dictGetD ([] : MarketConditions) "price_index" 1 * 100 -
            dictGetD ([] : MarketConditions) "market_price" 100| ≤
          dictGetD ([] : MarketConditions) "market_price" 100 →
        0 ≤ (fresh_company.update_state []).operations_data.customer_satisfaction)) :=
  bounded_attributes_after_ops fresh_company "marketing_campaign"
    [("budget", 1000000000000)] [] (by norm_num [fresh_company])
    (by norm_num [fresh_company]) (by norm_num [fresh_company])
    (by norm_num [fresh_company]) (by norm_num [fresh_company])
    (by norm_num [fresh_company]) (by norm_num [fresh_company])
    (by norm_num [fresh_company]) (by norm_num [fresh_company])
    (by norm_num [fresh_company]) (by decide) (by decide) (by decide)

/-- C3 counterexample: on an event manager holding one active instance whose
remaining duration is 0 (obtained by triggering a zero-duration event), one
`process_active_events` call removes and returns that instance with
remaining duration `-1`: the removed instance's duration did not "reach 0",
refuting the claim for this state. -/
theorem process_active_events_zero_duration_cex :
    ((em_zero.process_active_events).2.map fun e => e.remaining_duration) = [-1] ∧
    ¬ (∀ e ∈ (em_zero.process_active_events).2, e.remaining_duration = 0) := by
  constructor
  · rfl
  · decide

/-- C3 (amended): one `process_active_events` call decrements every active
instance's remaining duration by exactly 1; provided every active instance
has remaining duration at least 1 beforehand, the call removes and returns
exactly those instances whose duration thereby reached 0 (those that stood
at 1), every returned instance carries duration exactly 0, and every
instance left active has duration at least 1 — no non-positive-duration
instance dangles.  (An instance already at duration `≤ 0` would instead be
removed with a negative duration, as the counterexample shows.) -/
theorem process_active_events_spec (em : EventManager)
    (h : ∀ e ∈ em.active_events, 1 ≤ e.remaining_duration) :
    (em.process_active_events).1.active_events =
      ((em.active_events.filter fun e => 2 ≤ e.remaining_duration).map
        EventManager.tick) ∧
    (em.process_active_events).2 =
      ((em.active_events.filter fun e => e.remaining_duration = 1).map
        EventManager.tick) ∧
    (∀ e ∈ (em.process_active_events).2, e.remaining_duration = 0) ∧
    (∀ e ∈ (em.process_active_events).1.active_events, 1 ≤ e.remaining_duration) := by
  have hsurv : (em.process_active_events).1.active_events =
      ((em.active_events.filter fun e => 2 ≤ e.remaining_duration).map
        EventManager.tick) := by
    show ((em.active_events.map EventManager.tick).filter
        fun e => decide (0 < e.remaining_duration)) = _
    rw [List.filter_map]
    congr 1
    apply List.filter_congr
    intro e _
    simp only [Function.comp_apply, EventManager.tick]
    exact decide_eq_decide.mpr (by omega)
  have hexp : (em.process_active_events).2 =
      ((em.active_events.filter fun e => e.remaining_duration = 1).map
        EventManager.tick) := by
    show ((em.active_events.map EventManager.tick).filter
        fun e => decide (e.remaining_duration ≤ 0)) = _
    rw [List.filter_map]
    congr 1
    apply List.filter_congr
    intro e he
    have := h e he
    simp only [Function.comp_apply, EventManager.tick]
    exact decide_eq_decide.mpr (by omega)
  refine ⟨hsurv, hexp, ?_, ?_⟩
  · intro e he
    rw [hexp] at he
    rcases List.mem_map.mp he with ⟨e', he', rfl⟩
    have := List.of_mem_filter he'
    simp only [decide_eq_true_eq] at this
    simp [EventManager.tick, this]
  · intro e he
    rw [hsurv] at he
    rcases List.mem_map.mp he with ⟨e', he', rfl⟩
    have := List.of_mem_filter he'
    simp only [decide_eq_true_eq] at this
    simp only [EventManager.tick]
    omega

/-- C3 witness: on a manager with two active instances of durations 1 and 2,
the call expires exactly the duration-1 instance (returned at 0) and keeps
the other at duration 1. -/
theorem process_active_events_spec_witness :
    (em_pair.process_active_events).1.active_events =
      ((em_pair.active_events.filter fun e => 2 ≤ e.remaining_duration).map
        EventManager.tick) ∧
    (em_pair.process_active_events).2 =
      ((em_pair.active_events.filter fun e => e.remaining_duration = 1).map
        EventManager.tick) ∧
    (∀ e ∈ (em_pair.process_active_events).2, e.remaining_duration = 0) ∧
    (∀ e ∈ (em_pair.process_active_events).1.active_events, 1 ≤ e.remaining_duration) :=
  process_active_events_spec em_pair (by decide)

/-- C7 witness: with `max_rounds = 3`, four advances clamp the round counter
at 3 (not 4), and the simulation reports itself over. -/
theorem round_manager_clamp_witness :
    (advanceTimes { max_rounds := 3, current_round := 0 } 4).current_round
      = min ((4 : ℕ) : ℤ) 3 ∧
    ((advanceTimes { max_rounds := 3, current_round := 0 } 4).is_simulation_over = true
      ↔ (3 : ℤ) ≤ ((4 : ℕ) : ℤ)) :=
  round_manager_clamp 3 (by norm_num) 4

end UseCaseSim
